import Mathlib

/-!
Verification of the kanvas-api subscription lifecycle and notification
dispatch subsystems, shallowly embedded from the TypeScript source.

Conventions of the embedding:
* Instants and dates are integers (epoch milliseconds for `expiryDate` /
  `startDate`; milliseconds since local midnight for quiet-hours
  evaluation, since `toZonedTime` plus `setHours` arithmetic in
  `src/utils/timeUtils.ts` only ever compares instants on the current
  local calendar day and the day after).
* The external Google Play billing client (`GooglePlayService`) is an
  oracle: callers receive its outcome as an `Except CustomError` value,
  where `Except.error` models the TypeScript method throwing.
* The MongoDB collections are association lists (`List Subscription`,
  `List DeviceToken`); `findOne` is `List.find?`, `findOneAndUpdate`
  with `upsert: true` replaces the first key match or appends, and
  `document.save()` rewrites the found document in place
  (`updateFirst`).
* `console.log` output relevant to the claims is collected as a list of
  strings so that suppression reasons are observable.
-/

namespace Kanvas

/-- `CustomError` from `src/utils/customError.ts`: a message plus an
HTTP status code. -/
structure CustomError where
  message : String
  statusCode : Nat
deriving DecidableEq, Repr

/-- Subscription tier, from the `tier` union type in
`GooglePlayService` (`'basic' | 'premium'`). -/
inductive Tier where
  | basic
  | premium
deriving DecidableEq, Repr

/-- Subscription status values used by the controllers
(`active`, `expired`, `cancelled`, `paused`; the schema also allows
`pending` and `failed`). -/
inductive SubStatus where
  | pending
  | active
  | expired
  | cancelled
  | paused
  | failed
deriving DecidableEq, Repr

/-- One document of the `Subscription` collection, restricted to the
fields the controllers in `subscription.controller.ts` read or write. -/
structure Subscription where
  userId : Nat
  subscriptionId : String
  productId : String
  purchaseToken : String
  tier : Tier
  status : SubStatus
  startDate : Int
  expiryDate : Int
  autoRenewing : Bool
deriving DecidableEq, Repr

/-- Result of `GooglePlayService.verifySubscription`
(`SubscriptionVerificationResult` in `googlePlay.service.ts`). -/
structure VerificationResult where
  isValid : Bool
  tier : Tier
  expiryDate : Int
deriving DecidableEq, Repr

/-- Replace the first element satisfying `p` by its image under `f`
(`document.save()` after mutating the document `findOne` returned). -/
def updateFirst (p : α → Bool) (f : α → α) : List α → List α
  | [] => []
  | x :: xs => if p x then f x :: xs else x :: updateFirst p f xs

/-- `findOneAndUpdate` with `upsert: true, new: true`: replace the first
element satisfying `p` by `doc`, appending `doc` when nothing matches. -/
def upsertFirst (p : α → Bool) (doc : α) : List α → List α
  | [] => [doc]
  | x :: xs => if p x then doc :: xs else x :: upsertFirst p doc xs

/-! ## Quiet hours (`src/utils/timeUtils.ts`) -/

/-- The `QuietHours` interface of `timeUtils.ts`: an enabled flag,
wall-clock `"HH:mm"` strings, and an IANA timezone name.  The timezone
is consumed only by the external `toZonedTime` conversion, which the
embedding externalises (see `isWithinQuietHours`). -/
structure QuietHours where
  enabled : Bool
  startTime : String
  endTime : String
  timezone : String
deriving DecidableEq, Repr

/-- Split a character list at every occurrence of `c`
(the character-level behaviour of JavaScript `String.split`). -/
def splitAtChar (c : Char) : List Char → List (List Char)
  | [] => [[]]
  | x :: xs =>
    if x == c then
      [] :: splitAtChar c xs
    else
      match splitAtChar c xs with
      | [] => [[x]]
      | g :: gs => (x :: g) :: gs

/-- Decimal reading of a digit string, `JavaScript Number` on the
digit-only strings the zod `HH:mm` regex admits. -/
def digitsToNat : List Char → Option Nat
  | [] => none
  | cs => go cs 0
where
  go : List Char → Nat → Option Nat
    | [], acc => some acc
    | c :: cs, acc =>
      if c.isDigit then go cs (acc * 10 + (c.toNat - 48)) else none

/-- `time.split(':').map(Number)` destructured as `[hour, minute]`.
Inputs reaching this point satisfy the zod `HH:mm` regex; on malformed
input (where JavaScript would produce `NaN` and an always-false window)
the embedding defaults to `(0, 0)`. -/
def parseHM (s : String) : Nat × Nat :=
  match (splitAtChar ':' s.toList).map digitsToNat with
  | some h :: some m :: _ => (h, m)
  | _ => (0, 0)

/-- Start bound of the quiet window in milliseconds after local
midnight (`startTime.setHours(startHour, startMinute, 0, 0)`). -/
def quietStartMs (qh : QuietHours) : Nat :=
  ((parseHM qh.startTime).1 * 60 + (parseHM qh.startTime).2) * 60000

/-- Raw end bound in milliseconds after local midnight, before the
midnight-spanning adjustment. -/
def quietEndRawMs (qh : QuietHours) : Nat :=
  ((parseHM qh.endTime).1 * 60 + (parseHM qh.endTime).2) * 60000

/-- `isWithinQuietHours` from `timeUtils.ts`.  `userTimeMs` is the
current instant converted to the user's timezone (`toZonedTime`),
expressed as milliseconds since that day's local midnight; `setHours`
builds both bounds on the same calendar day, `setDate(getDate() + 1)`
adds one day (86400000 ms) when the raw end precedes the start, and the
final test is inclusive on both sides. -/
def isWithinQuietHours (qh : QuietHours) (userTimeMs : Nat) : Bool :=
  if !qh.enabled then
    false
  else
    let startMs := quietStartMs qh
    let endMs0 := quietEndRawMs qh
    let endMs := if endMs0 < startMs then endMs0 + 86400000 else endMs0
    decide (startMs ≤ userTimeMs) && decide (userTimeMs ≤ endMs)

/-! ## Notification dispatch
(`NotificationService.sendNotificationToUser` in the middleware file) -/

/-- The five per-category switches plus the quiet-hours object of one
`NotificationPreferences` document. -/
structure NotificationPreferences where
  newWallpapers : Bool
  trendingWallpapers : Bool
  subscriptionUpdates : Bool
  systemUpdates : Bool
  marketingUpdates : Bool
  quietHours : QuietHours
deriving DecidableEq, Repr

/-- The `type` argument of `sendNotificationToUser`: the name of one of
the five preference switches. -/
inductive NotificationCategory where
  | newWallpapers
  | trendingWallpapers
  | subscriptionUpdates
  | systemUpdates
  | marketingUpdates
deriving DecidableEq, Repr

/-- `preferences[type]`: dynamic field access on the preferences
document by category name. -/
def prefSwitch (p : NotificationPreferences) : NotificationCategory → Bool
  | .newWallpapers => p.newWallpapers
  | .trendingWallpapers => p.trendingWallpapers
  | .subscriptionUpdates => p.subscriptionUpdates
  | .systemUpdates => p.systemUpdates
  | .marketingUpdates => p.marketingUpdates

/-- A `DeviceToken` document, restricted to the fields dispatch reads
(`DeviceToken.find({ userId, isActive: true })` and `dt.token`). -/
structure DeviceToken where
  userId : Nat
  token : String
  isActive : Bool
deriving DecidableEq, Repr

/-- The category name as it appears in the log template string. -/
def categoryName : NotificationCategory → String
  | .newWallpapers => "newWallpapers"
  | .trendingWallpapers => "trendingWallpapers"
  | .subscriptionUpdates => "subscriptionUpdates"
  | .systemUpdates => "systemUpdates"
  | .marketingUpdates => "marketingUpdates"

/-- `console.log` template for the absent-preferences gate. -/
def logNoPreferences (userId : Nat) : String :=
  s!"No notification preferences found for user {userId}"

/-- `console.log` template for the disabled-category gate. -/
def logDisabled (userId : Nat) (category : NotificationCategory) : String :=
  s!"User {userId} has disabled {categoryName category} notifications"

/-- `console.log` template for the quiet-hours gate. -/
def logQuietHours (userId : Nat) : String :=
  s!"User {userId} is in quiet hours"

/-- The tokens `DeviceToken.find({ userId, isActive: true })` returns,
in store order. -/
def activeTokens (tokens : List DeviceToken) (userId : Nat) : List DeviceToken :=
  tokens.filter fun dt => dt.userId == userId && dt.isActive

/-- `NotificationService.sendNotificationToUser`.  Returns the value the
method resolves with — `none` for every `return null` path, `some ts`
when `sendMulticastNotification` is invoked with token list `ts`
(the external push response is abstracted to the token list sent) —
paired with the `console.log` lines emitted before returning.
`userTimeMs` is the current instant in the user's timezone as
milliseconds after local midnight (the input `isWithinQuietHours`
derives internally from `new Date()`); `prefs` is the
`NotificationPreferences.findOne({ userId })` result.  The surrounding
`try/catch` returns `null` instead of throwing, so the function is
total. -/
def sendNotificationToUser (prefs : Option NotificationPreferences)
    (category : NotificationCategory) (userTimeMs : Nat)
    (tokens : List DeviceToken) (userId : Nat) :
    Option (List String) × List String :=
  match prefs with
  | none => (none, [logNoPreferences userId])
  | some p =>
    if !prefSwitch p category then
      (none, [logDisabled userId category])
    else if p.quietHours.enabled && isWithinQuietHours p.quietHours userTimeMs then
      (none, [logQuietHours userId])
    else
      let deviceTokens := activeTokens tokens userId
      if deviceTokens.length == 0 then
        (none, [])
      else
        (some (deviceTokens.map DeviceToken.token), [])

/-! ## Subscription lifecycle (`src/controllers/subscription.controller.ts`) -/

/-- `{ userId, subscriptionId }`: the upsert key of the verify path. -/
def subKey (userId : Nat) (subscriptionId : String) (s : Subscription) : Bool :=
  s.userId == userId && s.subscriptionId == subscriptionId

/-- `{ subscriptionId }`: the lookup key of every webhook handler. -/
def bySid (subscriptionId : String) (s : Subscription) : Bool :=
  s.subscriptionId == subscriptionId

/-- `{ userId, status: 'active' }`: the lookup of the cancel path. -/
def activeOf (userId : Nat) (s : Subscription) : Bool :=
  s.userId == userId && s.status == SubStatus.active

/-- The document `verifyAndSaveSubscription` writes through
`findOneAndUpdate` on a valid verification at instant `now`. -/
def verifyDoc (userId : Nat) (subscriptionId purchaseToken : String)
    (vr : VerificationResult) (now : Int) : Subscription :=
  { userId := userId
    subscriptionId := subscriptionId
    productId := subscriptionId
    purchaseToken := purchaseToken
    tier := vr.tier
    status := SubStatus.active
    startDate := now
    expiryDate := vr.expiryDate
    autoRenewing := true }

/-- Outcome of a controller request: the store after the request and
either a thrown `CustomError` or the success value. -/
structure VerifyOutcome where
  store : List Subscription
  result : Except CustomError Subscription
deriving Repr

/-- `verifyAndSaveSubscription`.  `verifyRes` / `ackRes` are the
oracle outcomes of `googlePlayService.verifySubscription` and
`.acknowledgeSubscription` (`Except.error` = the call threw); `now` is
`new Date()` at the upsert.  The catch clause rethrows `CustomError`s
unchanged, and both oracles only throw `CustomError`s, so the wrapper
branch never fires.  Note the store keeps the upsert even when the
acknowledge call then throws. -/
def verifyAndSaveSubscription (userId : Option Nat)
    (subscriptionId purchaseToken : String)
    (verifyRes : Except CustomError VerificationResult)
    (ackRes : Except CustomError Unit)
    (now : Int) (store : List Subscription) : VerifyOutcome :=
  match userId with
  | none => ⟨store, .error ⟨"User not authenticated", 401⟩⟩
  | some uid =>
    match verifyRes with
    | .error e => ⟨store, .error e⟩
    | .ok vr =>
      if !vr.isValid then
        ⟨store, .error ⟨"Invalid subscription", 400⟩⟩
      else
        let doc := verifyDoc uid subscriptionId purchaseToken vr now
        let store2 := upsertFirst (subKey uid subscriptionId) doc store
        match ackRes with
        | .error e => ⟨store2, .error e⟩
        | .ok _ => ⟨store2, .ok doc⟩

/-- Outcome of `cancelSubscription`: store plus thrown error or the
success response. -/
structure CancelOutcome where
  store : List Subscription
  result : Except CustomError Unit
deriving Repr

/-- The mutation `cancelSubscription` applies to the found document
(`status = 'cancelled'; autoRenewing = false; save()`). -/
def cancelDoc (s : Subscription) : Subscription :=
  { s with status := SubStatus.cancelled, autoRenewing := false }

/-- `cancelSubscription`: find the caller's active subscription, 404
when none, else mark it cancelled.  No billing-client oracle appears in
the signature because the source makes no external call on this path. -/
def cancelSubscription (userId : Option Nat) (store : List Subscription) :
    CancelOutcome :=
  match userId with
  | none => ⟨store, .error ⟨"User not authenticated", 401⟩⟩
  | some uid =>
    match store.find? (activeOf uid) with
    | none => ⟨store, .error ⟨"No active subscription found", 404⟩⟩
    | some _ => ⟨updateFirst (activeOf uid) cancelDoc store, .ok ()⟩

/-! ### Webhook handlers -/

/-- The decoded webhook payload
(`JSON.parse(Buffer.from(message.data, 'base64').toString())`). -/
structure WebhookData where
  notificationType : String
  subscriptionId : String
  purchaseToken : String
  packageName : String
deriving DecidableEq, Repr

/-- What one internal webhook handler produced: the store afterwards,
how many `verifySubscription` calls it made, and the error it threw, if
any. -/
structure HandlerResult where
  store : List Subscription
  verifyCalls : Nat
  err : Option CustomError
deriving Repr

/-- `handleSubscriptionRenewal` (PURCHASED / RENEWED): look up by
`subscriptionId`, no-op when absent, else re-verify and on a valid
result set `status='active'`, refresh `expiryDate`, `autoRenewing=true`. -/
def handleSubscriptionRenewal (verifyRes : Except CustomError VerificationResult)
    (data : WebhookData) (store : List Subscription) : HandlerResult :=
  match store.find? (bySid data.subscriptionId) with
  | none => ⟨store, 0, none⟩
  | some _ =>
    match verifyRes with
    | .error e => ⟨store, 1, some e⟩
    | .ok vr =>
      if vr.isValid then
        ⟨updateFirst (bySid data.subscriptionId)
          (fun s => { s with status := SubStatus.active,
                             expiryDate := vr.expiryDate,
                             autoRenewing := true }) store, 1, none⟩
      else ⟨store, 1, none⟩

/-- The document mutation of `handleSubscriptionExpiry`
(`status = 'expired'; autoRenewing = false; save()`), shared by the
EXPIRED and CANCELED events. -/
def expireDoc (s : Subscription) : Subscription :=
  { s with status := SubStatus.expired, autoRenewing := false }

/-- `handleSubscriptionExpiry` (EXPIRED / CANCELED): look up by
`subscriptionId`, no-op when absent, else set `status='expired'` and
`autoRenewing=false` — no billing call on this path. -/
def handleSubscriptionExpiry (data : WebhookData) (store : List Subscription) :
    HandlerResult :=
  match store.find? (bySid data.subscriptionId) with
  | none => ⟨store, 0, none⟩
  | some _ =>
    ⟨updateFirst (bySid data.subscriptionId) expireDoc store, 0, none⟩

/-- `handleSubscriptionRecovery` (RECOVERED): re-verify; on valid set
`status='active'` and refresh `expiryDate` (autoRenewing untouched). -/
def handleSubscriptionRecovery (verifyRes : Except CustomError VerificationResult)
    (data : WebhookData) (store : List Subscription) : HandlerResult :=
  match store.find? (bySid data.subscriptionId) with
  | none => ⟨store, 0, none⟩
  | some _ =>
    match verifyRes with
    | .error e => ⟨store, 1, some e⟩
    | .ok vr =>
      if vr.isValid then
        ⟨updateFirst (bySid data.subscriptionId)
          (fun s => { s with status := SubStatus.active,
                             expiryDate := vr.expiryDate }) store, 1, none⟩
      else ⟨store, 1, none⟩

/-- The document mutation of `handleSubscriptionPause`
(`subscription.status = 'paused'` only). -/
def pauseDoc (s : Subscription) : Subscription :=
  { s with status := SubStatus.paused }

/-- `handleSubscriptionPause` (PAUSED): set `status='paused'` only; no
billing call. -/
def handleSubscriptionPause (data : WebhookData) (store : List Subscription) :
    HandlerResult :=
  match store.find? (bySid data.subscriptionId) with
  | none => ⟨store, 0, none⟩
  | some _ =>
    ⟨updateFirst (bySid data.subscriptionId) pauseDoc store, 0, none⟩

/-- `handleSubscriptionRestart` (RESTARTED): same shape as recovery. -/
def handleSubscriptionRestart (verifyRes : Except CustomError VerificationResult)
    (data : WebhookData) (store : List Subscription) : HandlerResult :=
  match store.find? (bySid data.subscriptionId) with
  | none => ⟨store, 0, none⟩
  | some _ =>
    match verifyRes with
    | .error e => ⟨store, 1, some e⟩
    | .ok vr =>
      if vr.isValid then
        ⟨updateFirst (bySid data.subscriptionId)
          (fun s => { s with status := SubStatus.active,
                             expiryDate := vr.expiryDate }) store, 1, none⟩
      else ⟨store, 1, none⟩

/-- `handleSubscriptionProration` (PRORATED): re-verify; on valid
refresh `expiryDate` only. -/
def handleSubscriptionProration (verifyRes : Except CustomError VerificationResult)
    (data : WebhookData) (store : List Subscription) : HandlerResult :=
  match store.find? (bySid data.subscriptionId) with
  | none => ⟨store, 0, none⟩
  | some _ =>
    match verifyRes with
    | .error e => ⟨store, 1, some e⟩
    | .ok vr =>
      if vr.isValid then
        ⟨updateFirst (bySid data.subscriptionId)
          (fun s => { s with expiryDate := vr.expiryDate }) store, 1, none⟩
      else ⟨store, 1, none⟩

/-- `handleSubscriptionDeferral` (DEFERRED): same effect as proration. -/
def handleSubscriptionDeferral (verifyRes : Except CustomError VerificationResult)
    (data : WebhookData) (store : List Subscription) : HandlerResult :=
  match store.find? (bySid data.subscriptionId) with
  | none => ⟨store, 0, none⟩
  | some _ =>
    match verifyRes with
    | .error e => ⟨store, 1, some e⟩
    | .ok vr =>
      if vr.isValid then
        ⟨updateFirst (bySid data.subscriptionId)
          (fun s => { s with expiryDate := vr.expiryDate }) store, 1, none⟩
      else ⟨store, 1, none⟩

/-- The `switch (data.notificationType)` dispatch of
`handleSubscriptionWebhook`, with the two fall-through groupings of the
source; unknown values hit the logging `default` branch and change
nothing. -/
def dispatchWebhook (verifyRes : Except CustomError VerificationResult)
    (data : WebhookData) (store : List Subscription) : HandlerResult :=
  let t := data.notificationType
  if t == "SUBSCRIPTION_PURCHASED" || t == "SUBSCRIPTION_RENEWED" then
    handleSubscriptionRenewal verifyRes data store
  else if t == "SUBSCRIPTION_EXPIRED" || t == "SUBSCRIPTION_CANCELED" then
    handleSubscriptionExpiry data store
  else if t == "SUBSCRIPTION_RECOVERED" then
    handleSubscriptionRecovery verifyRes data store
  else if t == "SUBSCRIPTION_PAUSED" then
    handleSubscriptionPause data store
  else if t == "SUBSCRIPTION_RESTARTED" then
    handleSubscriptionRestart verifyRes data store
  else if t == "SUBSCRIPTION_PRORATED" then
    handleSubscriptionProration verifyRes data store
  else if t == "SUBSCRIPTION_DEFERRED" then
    handleSubscriptionDeferral verifyRes data store
  else ⟨store, 0, none⟩

/-- HTTP response of the webhook controller plus the resulting store
and the number of billing verification calls made. -/
structure WebhookResponse where
  status : Nat
  store : List Subscription
  verifyCalls : Nat
deriving Repr

/-- `handleSubscriptionWebhook`.  `decoded` is the result of the
base64/JSON envelope decode (`none` = the decode threw).  The whole
switch runs inside the same `try`, so an error thrown by an internal
handler reaches the catch clause and is answered with 500, exactly
like a decode failure; only a throw-free pass responds 200. -/
def handleSubscriptionWebhook (decoded : Option WebhookData)
    (verifyRes : Except CustomError VerificationResult)
    (store : List Subscription) : WebhookResponse :=
  match decoded with
  | none => ⟨500, store, 0⟩
  | some data =>
    let r := dispatchWebhook verifyRes data store
    match r.err with
    | some _ => ⟨500, r.store, r.verifyCalls⟩
    | none => ⟨200, r.store, r.verifyCalls⟩

/-! ## Store lemmas -/

theorem find?_upsertFirst {p : α → Bool} {doc : α} (hp : p doc = true) :
    ∀ l : List α, (upsertFirst p doc l).find? p = some doc := by
  intro l
  induction l with
  | nil => simp [upsertFirst, hp]
  | cons x xs ih =>
    by_cases hx : p x = true
    · simp [upsertFirst, hx, List.find?, hp]
    · have hx' : p x = false := by simpa using hx
      simp [upsertFirst, hx', List.find?, ih]

theorem countP_upsertFirst {p : α → Bool} {doc : α} (hp : p doc = true) :
    ∀ l : List α, l.countP p ≤ 1 → (upsertFirst p doc l).countP p = 1 := by
  intro l
  induction l with
  | nil => intro _; simp [upsertFirst, List.countP_cons, hp]
  | cons x xs ih =>
    intro hle
    by_cases hx : p x = true
    · have hxs : xs.countP p = 0 := by
        rw [List.countP_cons, hx] at hle
        simp only [if_true] at hle
        omega
      simp [upsertFirst, hx, List.countP_cons, hp, hxs]
    · have hx' : p x = false := by simpa using hx
      have hxs : xs.countP p ≤ 1 := by
        rw [List.countP_cons] at hle
        omega
      simp [upsertFirst, hx', List.countP_cons, ih hxs]

theorem upsertFirst_idem {p : α → Bool} {doc : α} (hp : p doc = true) :
    ∀ l : List α, upsertFirst p doc (upsertFirst p doc l) = upsertFirst p doc l := by
  intro l
  induction l with
  | nil => simp [upsertFirst, hp]
  | cons x xs ih =>
    by_cases hx : p x = true
    · simp [upsertFirst, hx, hp]
    · have hx' : p x = false := by simpa using hx
      simp [upsertFirst, hx', ih]

theorem countP_updateFirst {p : α → Bool} {f : α → α}
    (hf : ∀ s, p (f s) = false) :
    ∀ l : List α, (updateFirst p f l).countP p = l.countP p - 1 := by
  intro l
  induction l with
  | nil => simp [updateFirst]
  | cons x xs ih =>
    by_cases hx : p x = true
    · simp [updateFirst, hx, List.countP_cons, hf]
    · have hx' : p x = false := by simpa using hx
      simp [updateFirst, hx', List.countP_cons, ih]

theorem find?_of_countP_zero {p : α → Bool} {l : List α}
    (h : l.countP p = 0) : l.find? p = none := by
  rw [List.find?_eq_none]
  intro x hx
  rw [List.countP_eq_zero] at h
  simpa using h x hx

/-! ## Theorems: notification dispatch claims -/

/-- C4: with preferences `{enabled: true, startTime: "22:00",
endTime: "08:00", timezone: "UTC"}` (category switch on, one active
token), a notification attempt at 23:30 UTC (84600000 ms after
midnight; `toZonedTime` is the identity for UTC) is suppressed by the
quiet-hours gate, and an attempt at 09:00 UTC (32400000 ms) is
delivered to the active token. -/
theorem quietHours_midnight_examples :
    sendNotificationToUser
      (some ⟨true, true, true, true, true, ⟨true, "22:00", "08:00", "UTC"⟩⟩)
      NotificationCategory.newWallpapers 84600000 [⟨7, "tok-1", true⟩] 7 =
      (none, [logQuietHours 7]) ∧
    sendNotificationToUser
      (some ⟨true, true, true, true, true, ⟨true, "22:00", "08:00", "UTC"⟩⟩)
      NotificationCategory.newWallpapers 32400000 [⟨7, "tok-1", true⟩] 7 =
      (some ["tok-1"], []) := by
  constructor <;> rfl

/-- C10: in a midnight-spanning quiet window (raw end bound below the
start bound) every local time strictly before the raw end bound — the
early-morning part of the intended window — is reported *outside* quiet
hours, because both bounds are built on the current calendar day and
only the end is advanced; a dispatch attempt there with the category
switch on and a non-empty active token set is therefore delivered. -/
theorem quietHours_midnight_morning_not_suppressed
    (qh : QuietHours) (t : Nat) (p : NotificationPreferences)
    (category : NotificationCategory) (tokens : List DeviceToken) (userId : Nat)
    (henabled : qh.enabled = true)
    (hspan : quietEndRawMs qh < quietStartMs qh)
    (ht : t < quietEndRawMs qh)
    (hp : p.quietHours = qh)
    (hcat : prefSwitch p category = true)
    (htok : activeTokens tokens userId ≠ []) :
    isWithinQuietHours qh t = false ∧
    (sendNotificationToUser (some p) category t tokens userId).1 =
      some ((activeTokens tokens userId).map DeviceToken.token) := by
  have hns : ¬ quietStartMs qh ≤ t := by omega
  have hfalse : isWithinQuietHours qh t = false := by
    simp [isWithinQuietHours, henabled, hspan, hns]
  have hlen : ¬ (activeTokens tokens userId).length = 0 := by
    intro h
    exact htok (List.length_eq_zero.mp h)
  refine ⟨hfalse, ?_⟩
  simp [sendNotificationToUser, hcat, hp, hfalse, hlen]

/-- C10 witness: the window 22:00–08:00 is midnight-spanning, 01:00
(3600000 ms) lies in its morning part, and the concrete dispatch call
there delivers to the single active token. -/
theorem quietHours_midnight_morning_not_suppressed_witness :
    isWithinQuietHours ⟨true, "22:00", "08:00", "UTC"⟩ 3600000 = false ∧
    (sendNotificationToUser
      (some ⟨true, true, true, true, true, ⟨true, "22:00", "08:00", "UTC"⟩⟩)
      NotificationCategory.newWallpapers 3600000 [⟨7, "tok-1", true⟩] 7).1 =
      some ["tok-1"] :=
  quietHours_midnight_morning_not_suppressed
    ⟨true, "22:00", "08:00", "UTC"⟩ 3600000
    ⟨true, true, true, true, true, ⟨true, "22:00", "08:00", "UTC"⟩⟩
    NotificationCategory.newWallpapers [⟨7, "tok-1", true⟩] 7
    rfl (by decide) (by decide) rfl rfl (by decide)

/-- C8 counterexample: a call suppressed by the empty-token gate
(preferences present, category on, quiet hours disabled, no active
device tokens) resolves with `null` and emits no log line at all — the
outcome carries no "skipped: reason" identifying the suppressing gate,
and is indistinguishable by its return value from every other
suppression. -/
theorem suppression_without_reason_counterexample :
    sendNotificationToUser
      (some ⟨true, true, true, true, true, ⟨false, "22:00", "08:00", "UTC"⟩⟩)
      NotificationCategory.newWallpapers 0 [] 7 = (none, []) := by
  rfl

/-- C8 (amended): suppression never throws — every gate resolves the
call with `null` — and the absent-preferences, disabled-category and
quiet-hours gates log one identifying message each, while the
empty-token gate returns `null` with no message; the return value
itself does not distinguish the gates. -/
theorem suppression_never_throws_outcomes :
    (∀ (category : NotificationCategory) (t : Nat)
       (tokens : List DeviceToken) (userId : Nat),
       sendNotificationToUser none category t tokens userId =
         (none, [logNoPreferences userId])) ∧
    (∀ (p : NotificationPreferences) (category : NotificationCategory)
       (t : Nat) (tokens : List DeviceToken) (userId : Nat),
       prefSwitch p category = false →
       sendNotificationToUser (some p) category t tokens userId =
         (none, [logDisabled userId category])) ∧
    (∀ (p : NotificationPreferences) (category : NotificationCategory)
       (t : Nat) (tokens : List DeviceToken) (userId : Nat),
       prefSwitch p category = true →
       (p.quietHours.enabled && isWithinQuietHours p.quietHours t) = true →
       sendNotificationToUser (some p) category t tokens userId =
         (none, [logQuietHours userId])) ∧
    (∀ (p : NotificationPreferences) (category : NotificationCategory)
       (t : Nat) (tokens : List DeviceToken) (userId : Nat),
       prefSwitch p category = true →
       (p.quietHours.enabled && isWithinQuietHours p.quietHours t) = false →
       activeTokens tokens userId = [] →
       sendNotificationToUser (some p) category t tokens userId = (none, [])) := by
  refine ⟨fun _ _ _ _ => rfl, ?_, ?_, ?_⟩
  · intro p category t tokens userId hoff
    simp [sendNotificationToUser, hoff]
  · intro p category t tokens userId hon hquiet
    simp [sendNotificationToUser, hon, hquiet]
  · intro p category t tokens userId hon hquiet hempty
    simp [sendNotificationToUser, hon, hquiet, hempty]

/-- C8 witness: each of the four suppression gates evaluated at a
concrete input. -/
theorem suppression_never_throws_outcomes_witness :
    sendNotificationToUser none NotificationCategory.systemUpdates 0 [] 3 =
      (none, [logNoPreferences 3]) ∧
    sendNotificationToUser
      (some ⟨true, true, true, true, false, ⟨false, "22:00", "08:00", "UTC"⟩⟩)
      NotificationCategory.marketingUpdates 0 [] 3 =
      (none, [logDisabled 3 NotificationCategory.marketingUpdates]) ∧
    sendNotificationToUser
      (some ⟨true, true, true, true, true, ⟨true, "22:00", "08:00", "UTC"⟩⟩)
      NotificationCategory.newWallpapers 84600000 [⟨3, "tok-1", true⟩] 3 =
      (none, [logQuietHours 3]) ∧
    sendNotificationToUser
      (some ⟨true, true, true, true, true, ⟨false, "22:00", "08:00", "UTC"⟩⟩)
      NotificationCategory.newWallpapers 0 [] 3 = (none, []) :=
  ⟨suppression_never_throws_outcomes.1 NotificationCategory.systemUpdates 0 [] 3,
   suppression_never_throws_outcomes.2.1 _ NotificationCategory.marketingUpdates 0 [] 3 rfl,
   suppression_never_throws_outcomes.2.2.1 _ NotificationCategory.newWallpapers 84600000
     [⟨3, "tok-1", true⟩] 3 rfl (by decide),
   suppression_never_throws_outcomes.2.2.2 _ NotificationCategory.newWallpapers 0 [] 3
     rfl (by decide) rfl⟩

/-! ## Theorems: verify path -/

/-- The store a valid verification leaves behind, whatever the
acknowledge call does: the upsert of the verification document. -/
theorem verify_store_of_valid (uid : Nat) (sid ptok : String)
    (vr : VerificationResult) (ack : Except CustomError Unit)
    (now : Int) (store : List Subscription)
    (hvalid : vr.isValid = true) :
    (verifyAndSaveSubscription (some uid) sid ptok (.ok vr) ack now store).store =
      upsertFirst (subKey uid sid) (verifyDoc uid sid ptok vr now) store := by
  cases ack <;> simp [verifyAndSaveSubscription, hvalid]

/-- C7: when the billing verification result has `isValid = false`, the
verify request throws `CustomError('Invalid subscription', 400)` and
leaves the Subscription store exactly as it was. -/
theorem verify_invalid_no_mutation (uid : Nat) (sid ptok : String)
    (vr : VerificationResult) (ack : Except CustomError Unit)
    (now : Int) (store : List Subscription)
    (h : vr.isValid = false) :
    verifyAndSaveSubscription (some uid) sid ptok (.ok vr) ack now store =
      ⟨store, .error ⟨"Invalid subscription", 400⟩⟩ := by
  simp [verifyAndSaveSubscription, h]

/-- C7 witness: a concrete invalid verification against a one-record
store throws 400 and mutates nothing. -/
theorem verify_invalid_no_mutation_witness :
    verifyAndSaveSubscription (some 1) "sub-basic" "tok-1"
      (.ok ⟨false, Tier.basic, 1000⟩) (.ok ()) 5
      [⟨2, "sub-x", "sub-x", "tok-2", Tier.basic, SubStatus.active, 0, 9, true⟩] =
      ⟨[⟨2, "sub-x", "sub-x", "tok-2", Tier.basic, SubStatus.active, 0, 9, true⟩],
       .error ⟨"Invalid subscription", 400⟩⟩ :=
  verify_invalid_no_mutation 1 "sub-basic" "tok-1"
    ⟨false, Tier.basic, 1000⟩ (.ok ()) 5
    [⟨2, "sub-x", "sub-x", "tok-2", Tier.basic, SubStatus.active, 0, 9, true⟩] rfl

/-- C3 counterexample: replaying a valid verify call at a later instant
rewrites `startDate` to the replay's instant — the stored document after
the second call carries `startDate = 7`, not the first-creation instant
`5`, so `startDate` is not set "only on first creation" and the second
call does not converge to the first call's stored state. -/
theorem verify_replay_resets_startDate_counterexample :
    (verifyAndSaveSubscription (some 1) "sub-basic" "tok-1"
      (.ok ⟨true, Tier.basic, 1000⟩) (.ok ()) 7
      ((verifyAndSaveSubscription (some 1) "sub-basic" "tok-1"
        (.ok ⟨true, Tier.basic, 1000⟩) (.ok ()) 5 []).store)).store =
      [⟨1, "sub-basic", "sub-basic", "tok-1", Tier.basic, SubStatus.active,
        7, 1000, true⟩] ∧
    (7 : Int) ≠ 5 := by
  constructor
  · rfl
  · decide

/-- C3 (amended): replaying a valid verify call still converges to a
single record keyed `(userId, subscriptionId)` with `status = active`,
`expiryDate` and `autoRenewing = true` taken from the verification
result — but `startDate` is rewritten to the current instant on *every*
call, not only on first creation, so the replay reproduces the first
call's state exactly when it runs at the same instant. -/
theorem verify_replay_converges (uid : Nat) (sid ptok : String)
    (vr : VerificationResult) (ack1 ack2 : Except CustomError Unit)
    (now1 now2 : Int) (store : List Subscription)
    (hvalid : vr.isValid = true)
    (hcount : store.countP (subKey uid sid) ≤ 1) :
    ((verifyAndSaveSubscription (some uid) sid ptok (.ok vr) ack2 now2
        ((verifyAndSaveSubscription (some uid) sid ptok (.ok vr) ack1 now1
          store).store)).store.countP (subKey uid sid) = 1) ∧
    ((verifyAndSaveSubscription (some uid) sid ptok (.ok vr) ack2 now2
        ((verifyAndSaveSubscription (some uid) sid ptok (.ok vr) ack1 now1
          store).store)).store.find? (subKey uid sid) =
      some (verifyDoc uid sid ptok vr now2)) ∧
    (verifyDoc uid sid ptok vr now2).status = SubStatus.active ∧
    (verifyDoc uid sid ptok vr now2).expiryDate = vr.expiryDate ∧
    (verifyDoc uid sid ptok vr now2).autoRenewing = true ∧
    (now1 = now2 →
      (verifyAndSaveSubscription (some uid) sid ptok (.ok vr) ack2 now2
        ((verifyAndSaveSubscription (some uid) sid ptok (.ok vr) ack1 now1
          store).store)).store =
      (verifyAndSaveSubscription (some uid) sid ptok (.ok vr) ack1 now1
        store).store) := by
  have hkey : ∀ now : Int, subKey uid sid (verifyDoc uid sid ptok vr now) = true := by
    intro now
    simp [subKey, verifyDoc]
  rw [verify_store_of_valid uid sid ptok vr ack1 now1 store hvalid,
      verify_store_of_valid uid sid ptok vr ack2 now2 _ hvalid]
  refine ⟨?_, ?_, rfl, rfl, rfl, ?_⟩
  · exact countP_upsertFirst (hkey now2) _
      (le_of_eq (countP_upsertFirst (hkey now1) _ hcount))
  · exact find?_upsertFirst (hkey now2) _
  · intro hnow
    rw [hnow]
    exact upsertFirst_idem (hkey now2) _

/-- C3 witness: the amended convergence at a concrete input — two
verifies of the same token at the same instant against an empty store
leave exactly the one active record. -/
theorem verify_replay_converges_witness :
    ((verifyAndSaveSubscription (some 1) "sub-basic" "tok-1"
        (.ok ⟨true, Tier.basic, 1000⟩) (.ok ()) 5
        ((verifyAndSaveSubscription (some 1) "sub-basic" "tok-1"
          (.ok ⟨true, Tier.basic, 1000⟩) (.ok ()) 5 []).store)).store.countP
      (subKey 1 "sub-basic") = 1) ∧
    ((verifyAndSaveSubscription (some 1) "sub-basic" "tok-1"
        (.ok ⟨true, Tier.basic, 1000⟩) (.ok ()) 5
        ((verifyAndSaveSubscription (some 1) "sub-basic" "tok-1"
          (.ok ⟨true, Tier.basic, 1000⟩) (.ok ()) 5 []).store)).store.find?
      (subKey 1 "sub-basic") =
      some (verifyDoc 1 "sub-basic" "tok-1" ⟨true, Tier.basic, 1000⟩ 5)) := by
  have h := verify_replay_converges 1 "sub-basic" "tok-1"
    ⟨true, Tier.basic, 1000⟩ (.ok ()) (.ok ()) 5 5 [] rfl (by decide)
  exact ⟨h.1, h.2.1⟩

/-! ## Theorems: cancel path -/

/-- Marking a document cancelled takes it out of every
`{ userId, status: 'active' }` lookup. -/
theorem activeOf_cancelDoc (uid : Nat) (s : Subscription) :
    activeOf uid (cancelDoc s) = false := by
  simp [activeOf, cancelDoc]

/-- C6 counterexample: a caller holding *two* active subscriptions can
cancel twice in a row and the second call still succeeds (it cancels
the other record) instead of failing with NotFound, refuting
"calling cancel twice in a row makes the second call fail with
NotFound" as an unconditional consequence. -/
theorem cancel_twice_succeeds_counterexample :
    (cancelSubscription (some 1)
      ((cancelSubscription (some 1)
        [⟨1, "sid-a", "sid-a", "tok-a", Tier.basic, SubStatus.active, 0, 9, true⟩,
         ⟨1, "sid-b", "sid-b", "tok-b", Tier.premium, SubStatus.active, 0, 9, true⟩]).store)).result =
      .ok () := by
  rfl

/-- C6 (amended): cancel fails with `CustomError(404)` exactly when the
caller has no `active` subscription; otherwise it rewrites the first
active record found to `status = cancelled`, `autoRenewing = false`
(the definition consults no billing oracle — the path makes no external
call); and *when the caller holds exactly one active subscription*,
cancelling twice in a row makes the second call fail with 404. -/
theorem cancel_spec (uid : Nat) (store : List Subscription) :
    ((cancelSubscription (some uid) store).result =
        .error ⟨"No active subscription found", 404⟩ ↔
      store.find? (activeOf uid) = none) ∧
    (∀ s, store.find? (activeOf uid) = some s →
      cancelSubscription (some uid) store =
        ⟨updateFirst (activeOf uid) cancelDoc store, .ok ()⟩ ∧
      (cancelDoc s).status = SubStatus.cancelled ∧
      (cancelDoc s).autoRenewing = false) ∧
    (store.countP (activeOf uid) = 1 →
      (cancelSubscription (some uid)
        ((cancelSubscription (some uid) store).store)).result =
        .error ⟨"No active subscription found", 404⟩) := by
  refine ⟨?_, ?_, ?_⟩
  · cases h : store.find? (activeOf uid) <;> simp [cancelSubscription, h]
  · intro s hfind
    simp [cancelSubscription, hfind, cancelDoc]
  · intro hone
    have hfind : store.find? (activeOf uid) ≠ none := by
      intro hnone
      rw [List.find?_eq_none] at hnone
      have : store.countP (activeOf uid) = 0 := by
        rw [List.countP_eq_zero]
        exact hnone
      omega
    cases h : store.find? (activeOf uid) with
    | none => exact absurd h hfind
    | some s =>
      have hstore : (cancelSubscription (some uid) store).store =
          updateFirst (activeOf uid) cancelDoc store := by
        simp [cancelSubscription, h]
      rw [hstore]
      have hzero : (updateFirst (activeOf uid) cancelDoc store).countP
          (activeOf uid) = 0 := by
        rw [countP_updateFirst (activeOf_cancelDoc uid) store, hone]
      have hnone := find?_of_countP_zero hzero
      simp [cancelSubscription, hnone]

/-- C6 witness: the amended behaviour at a concrete one-active-record
store — first cancel succeeds and marks the record cancelled, second
cancel fails with 404. -/
theorem cancel_spec_witness :
    ((cancelSubscription (some 1)
        [⟨1, "sid-a", "sid-a", "tok-a", Tier.basic, SubStatus.active, 0, 9, true⟩]).result =
        .error ⟨"No active subscription found", 404⟩ ↔
      ([⟨1, "sid-a", "sid-a", "tok-a", Tier.basic, SubStatus.active, 0, 9, true⟩] :
        List Subscription).find? (activeOf 1) = none) ∧
    (cancelSubscription (some 1)
      ((cancelSubscription (some 1)
        [⟨1, "sid-a", "sid-a", "tok-a", Tier.basic, SubStatus.active, 0, 9, true⟩]).store)).result =
      .error ⟨"No active subscription found", 404⟩ := by
  have h := cancel_spec 1
    [⟨1, "sid-a", "sid-a", "tok-a", Tier.basic, SubStatus.active, 0, 9, true⟩]
  exact ⟨h.1, h.2.2 (by decide)⟩

/-! ## Theorems: webhook path -/

/-- When the billing verification oracle returns (rather than throws),
no internal webhook handler throws, whatever the event type or store. -/
theorem renewal_ok_no_throw (vr : VerificationResult) (data : WebhookData)
    (store : List Subscription) :
    (handleSubscriptionRenewal (.ok vr) data store).err = none := by
  unfold handleSubscriptionRenewal
  repeat' split
  all_goals first | rfl | simp_all

theorem expiry_no_throw (data : WebhookData) (store : List Subscription) :
    (handleSubscriptionExpiry data store).err = none := by
  unfold handleSubscriptionExpiry
  repeat' split
  all_goals rfl

theorem recovery_ok_no_throw (vr : VerificationResult) (data : WebhookData)
    (store : List Subscription) :
    (handleSubscriptionRecovery (.ok vr) data store).err = none := by
  unfold handleSubscriptionRecovery
  repeat' split
  all_goals first | rfl | simp_all

theorem pause_no_throw (data : WebhookData) (store : List Subscription) :
    (handleSubscriptionPause data store).err = none := by
  unfold handleSubscriptionPause
  repeat' split
  all_goals rfl

theorem restart_ok_no_throw (vr : VerificationResult) (data : WebhookData)
    (store : List Subscription) :
    (handleSubscriptionRestart (.ok vr) data store).err = none := by
  unfold handleSubscriptionRestart
  repeat' split
  all_goals first | rfl | simp_all

theorem proration_ok_no_throw (vr : VerificationResult) (data : WebhookData)
    (store : List Subscription) :
    (handleSubscriptionProration (.ok vr) data store).err = none := by
  unfold handleSubscriptionProration
  repeat' split
  all_goals first | rfl | simp_all

theorem deferral_ok_no_throw (vr : VerificationResult) (data : WebhookData)
    (store : List Subscription) :
    (handleSubscriptionDeferral (.ok vr) data store).err = none := by
  unfold handleSubscriptionDeferral
  repeat' split
  all_goals first | rfl | simp_all

theorem dispatchWebhook_ok_no_throw (data : WebhookData)
    (vr : VerificationResult) (store : List Subscription) :
    (dispatchWebhook (.ok vr) data store).err = none := by
  unfold dispatchWebhook
  dsimp only
  repeat' split
  all_goals
    first
    | exact renewal_ok_no_throw vr data store
    | exact expiry_no_throw data store
    | exact recovery_ok_no_throw vr data store
    | exact pause_no_throw data store
    | exact restart_ok_no_throw vr data store
    | exact proration_ok_no_throw vr data store
    | exact deferral_ok_no_throw vr data store
    | rfl

/-- C1 counterexample: a webhook whose body decodes successfully (a
RENEWED event for an existing subscription) is answered with **500**,
not 200, when the billing verification call throws — the switch runs
inside the same `try`, so internal throws reach the catch clause and
are surfaced to the sender, refuting "a 500 response is returned only
when decoding the envelope fails". -/
theorem webhook_internal_throw_counterexample :
    (handleSubscriptionWebhook
      (some ⟨"SUBSCRIPTION_RENEWED", "sid-a", "tok-a", "pkg"⟩)
      (.error ⟨"Error verifying subscription", 500⟩)
      [⟨1, "sid-a", "sid-a", "tok-a", Tier.basic, SubStatus.active, 0, 9,
        true⟩]).status = 500 := by
  rfl

/-- C1 (amended): the webhook handler answers 500 when the envelope
decode fails *or* when an internal handler (in particular a billing
verification call) throws, and 200 exactly when dispatch completes
without a throw — which it always does when the billing oracle
returns. -/
theorem webhook_response_characterization :
    (∀ (v : Except CustomError VerificationResult) (store : List Subscription),
      handleSubscriptionWebhook none v store = ⟨500, store, 0⟩) ∧
    (∀ (data : WebhookData) (v : Except CustomError VerificationResult)
       (store : List Subscription),
      (handleSubscriptionWebhook (some data) v store).status = 200 ↔
        (dispatchWebhook v data store).err = none) ∧
    (∀ (data : WebhookData) (vr : VerificationResult)
       (store : List Subscription),
      (handleSubscriptionWebhook (some data) (.ok vr) store).status = 200) := by
  have hiff : ∀ (data : WebhookData) (v : Except CustomError VerificationResult)
      (store : List Subscription),
      (handleSubscriptionWebhook (some data) v store).status = 200 ↔
        (dispatchWebhook v data store).err = none := by
    intro data v store
    unfold handleSubscriptionWebhook
    cases h : (dispatchWebhook v data store).err <;> simp [h]
  refine ⟨fun _ _ => rfl, hiff, ?_⟩
  intro data vr store
  exact (hiff data (.ok vr) store).mpr (dispatchWebhook_ok_no_throw data vr store)

/-- C5: any webhook event — whatever its `notificationType` — whose
`subscriptionId` matches no record is a complete no-op: the store is
returned unchanged (in particular no record is created), no billing
verification call is made, and the sender gets 200. -/
theorem webhook_unknown_subscription_noop (data : WebhookData)
    (v : Except CustomError VerificationResult) (store : List Subscription)
    (h : store.find? (bySid data.subscriptionId) = none) :
    handleSubscriptionWebhook (some data) v store = ⟨200, store, 0⟩ := by
  have hd : dispatchWebhook v data store = ⟨store, 0, none⟩ := by
    unfold dispatchWebhook
    simp [handleSubscriptionRenewal, handleSubscriptionExpiry,
      handleSubscriptionRecovery, handleSubscriptionPause,
      handleSubscriptionRestart, handleSubscriptionProration,
      handleSubscriptionDeferral, h]
  simp [handleSubscriptionWebhook, hd]

/-- C5 witness: a RENEWED event for an unknown `subscriptionId` against
a store holding an unrelated record returns 200 and changes nothing. -/
theorem webhook_unknown_subscription_noop_witness :
    handleSubscriptionWebhook
      (some ⟨"SUBSCRIPTION_RENEWED", "sid-ghost", "tok-g", "pkg"⟩)
      (.ok ⟨true, Tier.basic, 99⟩)
      [⟨1, "sid-a", "sid-a", "tok-a", Tier.basic, SubStatus.active, 0, 9, true⟩] =
      ⟨200,
       [⟨1, "sid-a", "sid-a", "tok-a", Tier.basic, SubStatus.active, 0, 9, true⟩],
       0⟩ :=
  webhook_unknown_subscription_noop
    ⟨"SUBSCRIPTION_RENEWED", "sid-ghost", "tok-g", "pkg"⟩
    (.ok ⟨true, Tier.basic, 99⟩)
    [⟨1, "sid-a", "sid-a", "tok-a", Tier.basic, SubStatus.active, 0, 9, true⟩]
    (by decide)

/-- C2 counterexample: a CANCELED webhook event on an existing `active`
subscription leaves the record with `status = expired` — not
`cancelled` as claimed — because the switch routes both
`SUBSCRIPTION_EXPIRED` and `SUBSCRIPTION_CANCELED` to the same
`handleSubscriptionExpiry`. -/
theorem webhook_canceled_sets_expired_counterexample :
    (handleSubscriptionWebhook
      (some ⟨"SUBSCRIPTION_CANCELED", "sid-a", "tok-a", "pkg"⟩)
      (.ok ⟨true, Tier.basic, 99⟩)
      [⟨1, "sid-a", "sid-a", "tok-a", Tier.basic, SubStatus.active, 0, 9,
        true⟩]).store =
      [⟨1, "sid-a", "sid-a", "tok-a", Tier.basic, SubStatus.expired, 0, 9,
        false⟩] ∧
    SubStatus.expired ≠ SubStatus.cancelled := by
  constructor
  · rfl
  · decide

/-- C2 (amended): on an EXPIRED **or** CANCELED event whose
`subscriptionId` matches an existing record, the webhook sets that
record's status to `expired` (for both event types — CANCELED is not
mapped to `cancelled`), sets `autoRenewing` to `false`, makes no
billing verification call, and answers 200. -/
theorem webhook_expired_canceled_spec (data : WebhookData)
    (v : Except CustomError VerificationResult) (store : List Subscription)
    (s : Subscription)
    (htype : data.notificationType = "SUBSCRIPTION_EXPIRED" ∨
      data.notificationType = "SUBSCRIPTION_CANCELED")
    (hfind : store.find? (bySid data.subscriptionId) = some s) :
    handleSubscriptionWebhook (some data) v store =
      ⟨200, updateFirst (bySid data.subscriptionId) expireDoc store, 0⟩ ∧
    (expireDoc s).status = SubStatus.expired ∧
    (expireDoc s).autoRenewing = false := by
  refine ⟨?_, rfl, rfl⟩
  have hd : dispatchWebhook v data store =
      ⟨updateFirst (bySid data.subscriptionId) expireDoc store, 0, none⟩ := by
    unfold dispatchWebhook
    rcases htype with h | h <;>
      simp [h, handleSubscriptionExpiry, hfind]
  simp [handleSubscriptionWebhook, hd]

/-- C2 witness: the amended behaviour at a concrete CANCELED event on a
one-record store. -/
theorem webhook_expired_canceled_spec_witness :
    handleSubscriptionWebhook
      (some ⟨"SUBSCRIPTION_CANCELED", "sid-a", "tok-a", "pkg"⟩)
      (.ok ⟨true, Tier.basic, 99⟩)
      [⟨1, "sid-a", "sid-a", "tok-a", Tier.basic, SubStatus.active, 0, 9, true⟩] =
      ⟨200,
       updateFirst (bySid "sid-a") expireDoc
         [⟨1, "sid-a", "sid-a", "tok-a", Tier.basic, SubStatus.active, 0, 9, true⟩],
       0⟩ :=
  (webhook_expired_canceled_spec
    ⟨"SUBSCRIPTION_CANCELED", "sid-a", "tok-a", "pkg"⟩
    (.ok ⟨true, Tier.basic, 99⟩)
    [⟨1, "sid-a", "sid-a", "tok-a", Tier.basic, SubStatus.active, 0, 9, true⟩]
    ⟨1, "sid-a", "sid-a", "tok-a", Tier.basic, SubStatus.active, 0, 9, true⟩
    (Or.inr rfl) (by decide)).1

/-- C9: a PAUSED event on an existing subscription rewrites exactly the
first matching record through `pauseDoc`, which changes `status` to
`paused` and nothing else — `expiryDate`, `autoRenewing`, `tier` and
every remaining attribute are preserved — makes no billing verification
call, and answers 200. -/
theorem webhook_paused_frame (data : WebhookData)
    (v : Except CustomError VerificationResult) (store : List Subscription)
    (s : Subscription)
    (htype : data.notificationType = "SUBSCRIPTION_PAUSED")
    (hfind : store.find? (bySid data.subscriptionId) = some s) :
    handleSubscriptionWebhook (some data) v store =
      ⟨200, updateFirst (bySid data.subscriptionId) pauseDoc store, 0⟩ ∧
    (∀ t : Subscription,
      (pauseDoc t).status = SubStatus.paused ∧
      (pauseDoc t).expiryDate = t.expiryDate ∧
      (pauseDoc t).autoRenewing = t.autoRenewing ∧
      (pauseDoc t).tier = t.tier ∧
      (pauseDoc t).userId = t.userId ∧
      (pauseDoc t).subscriptionId = t.subscriptionId ∧
      (pauseDoc t).productId = t.productId ∧
      (pauseDoc t).purchaseToken = t.purchaseToken ∧
      (pauseDoc t).startDate = t.startDate) := by
  refine ⟨?_, fun t => ⟨rfl, rfl, rfl, rfl, rfl, rfl, rfl, rfl, rfl⟩⟩
  have hd : dispatchWebhook v data store =
      ⟨updateFirst (bySid data.subscriptionId) pauseDoc store, 0, none⟩ := by
    unfold dispatchWebhook
    simp [htype, handleSubscriptionPause, hfind]
  simp [handleSubscriptionWebhook, hd]

/-- C9 witness: the PAUSED frame property at a concrete active
record. -/
theorem webhook_paused_frame_witness :
    handleSubscriptionWebhook
      (some ⟨"SUBSCRIPTION_PAUSED", "sid-a", "tok-a", "pkg"⟩)
      (.ok ⟨true, Tier.basic, 99⟩)
      [⟨1, "sid-a", "sid-a", "tok-a", Tier.basic, SubStatus.active, 0, 9, true⟩] =
      ⟨200,
       updateFirst (bySid "sid-a") pauseDoc
         [⟨1, "sid-a", "sid-a", "tok-a", Tier.basic, SubStatus.active, 0, 9, true⟩],
       0⟩ :=
  (webhook_paused_frame
    ⟨"SUBSCRIPTION_PAUSED", "sid-a", "tok-a", "pkg"⟩
    (.ok ⟨true, Tier.basic, 99⟩)
    [⟨1, "sid-a", "sid-a", "tok-a", Tier.basic, SubStatus.active, 0, 9, true⟩]
    ⟨1, "sid-a", "sid-a", "tok-a", Tier.basic, SubStatus.active, 0, 9, true⟩
    rfl (by decide)).1

end Kanvas
